import Mathlib

/-!
Verification of the Digital Keychain quote machine (src/QuoteMachine.ino).

The device strings (Arduino `String`) are modelled as `List Nat` of byte
values; the EEPROM is modelled as a total map from addresses to stored
bytes.  Hardware and library collaborators (WiFi join, HTTP transport,
JSON field extraction, SD card files, the NTP clock) are supplied as an
explicit environment record, following the spec's external-interface
boundary.  Each definition below mirrors the correspondingly named
function of the source file.
-/

/-- EEPROM contents: byte stored at each address (`EEPROM.read`). -/
def EEPROM : Type := Nat → Nat

/-- `EEPROM.write(a, v)`: stores the low byte of `v` at address `a`. -/
def eepromWrite (e : EEPROM) (a v : Nat) : EEPROM :=
  fun x => if x = a then v % 256 else e x

/-- `writeStringToEEPROM(addrOffset, strToWrite)` from the source: stores
`byte len = strToWrite.length()` (a `byte`, hence the length mod 256) at
the offset, followed by the first `len` characters of the string. -/
def writeStringToEEPROM (e : EEPROM) (addrOffset : Nat) (strToWrite : List Nat) : EEPROM :=
  let len := strToWrite.length % 256
  (List.range len).foldl
    (fun acc i => eepromWrite acc (addrOffset + 1 + i) (strToWrite.getD i 0))
    (eepromWrite e addrOffset len)

/-- `readStringFromEEPROM(addrOffset)` from the source: reads the length
byte, then that many data bytes into a `char` buffer terminated by a NUL,
and builds an Arduino `String` from the C string — which stops at the
first NUL byte, modelled by `takeWhile`. -/
def readStringFromEEPROM (e : EEPROM) (addrOffset : Nat) : List Nat :=
  let newStrLen := e addrOffset
  ((List.range newStrLen).map (fun i => e (addrOffset + 1 + i))).takeWhile
    (fun b => b != 0)

/-- Arduino `String.indexOf(ch)`: index of the first occurrence, `-1` if absent. -/
def stringIndexOf (l : List Nat) (b : Nat) : Int :=
  match l.findIdx? (fun c => c == b) with
  | some i => (i : Int)
  | none => -1

/-- Conversion of a C `int` to `unsigned int` (32-bit), as happens to the
arguments of Arduino `String.substring`. -/
def toUnsigned (i : Int) : Nat := (i % 4294967296).toNat

/-- Arduino `String.substring(left, right)`: swaps the bounds when
`left > right`, clamps `right` to the length, empty when `left` is past
the end. -/
def substringA (l : List Nat) (left right : Nat) : List Nat :=
  let lo := if right < left then right else left
  let hi := if right < left then left else right
  let hi := min hi l.length
  if l.length ≤ lo then [] else (l.take hi).drop lo

/-- Digit-accumulation core of `atol`: consumes leading decimal digits. -/
def parseDigits : List Nat → Nat → Nat
  | [], acc => acc
  | c :: rest, acc =>
      if 48 ≤ c ∧ c ≤ 57 then parseDigits rest (acc * 10 + (c - 48)) else acc

/-- Arduino `String.toInt()` = C `atol`: skip leading whitespace, optional
sign, then leading decimal digits (0 when there are none). -/
def stringToInt (l : List Nat) : Int :=
  let l := l.dropWhile (fun c => c == 32 || (9 ≤ c && c ≤ 13))
  match l with
  | 45 :: rest => -(parseDigits rest 0 : Int)
  | 43 :: rest => (parseDigits rest 0 : Int)
  | _ => (parseDigits l 0 : Int)

/-- `temp.substring(0, temp.indexOf(",")).toInt()` — the `p_day` parsed by
`validTime` from the stored watermark string. -/
def watermarkDay (temp : List Nat) : Int :=
  stringToInt (substringA temp 0 (toUnsigned (stringIndexOf temp 44)))

/-- `temp.substring(temp.indexOf(",") + 1).toInt()` — the `p_hour` parsed
by `validTime` from the stored watermark string. -/
def watermarkHour (temp : List Nat) : Int :=
  stringToInt (substringA temp (toUnsigned (stringIndexOf temp 44 + 1)) temp.length)

/-- `validTime()` from the source: with the current local time available
(`getLocalTime` succeeded, giving day-of-month and hour), reads the
watermark string at EEPROM offset 480 and returns
`(tm_mday != p_day) && (tm_hour >= p_hour)`; returns `false` when the
local time is unavailable. -/
def validTime (clock : Option (Int × Int)) (e : EEPROM) : Bool :=
  match clock with
  | some dh =>
      decide (dh.1 ≠ watermarkDay (readStringFromEEPROM e 480)) &&
      decide (watermarkHour (readStringFromEEPROM e 480) ≤ dh.2)
  | none => false

/-- Bytes of the string literal built by `button1` as the initial quote
value, also the prefix compared by `quote.substring(0,6) == "Error."`. -/
def errorLit : List Nat := [69, 114, 114, 111, 114, 46]

/-- Bytes of the fallback literal of `httpRequest`
(an "Error... Contact Larry or wait for a bit!" message). -/
def httpSentinel : List Nat :=
  [69, 114, 114, 111, 114, 46, 46, 46, 32, 67, 111, 110, 116, 97, 99, 116, 32,
   76, 97, 114, 114, 121, 32, 111, 114, 32, 119, 97, 105, 116, 32, 102, 111,
   114, 32, 97, 32, 98, 105, 116, 33]

/-- Bytes of the fallback literal of `getRandSD`
(a "Something is up with the SD files... Sorry!" message, with the
apostrophe byte 39). -/
def sdSentinel : List Nat :=
  [83, 111, 109, 101, 116, 104, 105, 110, 103, 39, 115, 32, 117, 112, 32, 119,
   105, 116, 104, 32, 116, 104, 101, 32, 83, 68, 32, 102, 105, 108, 101, 115,
   46, 46, 46, 32, 83, 111, 114, 114, 121, 33]

/-- Decimal rendering of a nonnegative number, as `String(int)` does. -/
def natBytes (n : Nat) : List Nat := (Nat.toDigits 10 n).map Char.toNat

/-- Decimal rendering of a C `int`, as `String(int)` does. -/
def intBytes (i : Int) : List Nat :=
  if i < 0 then 45 :: natBytes (-i).toNat else natBytes i.toNat

/-- The watermark string written by `httpRequest`:
`String(timeinfo.tm_mday) + "," + String(timeinfo.tm_hour)`. -/
def trackerBytes (day hour : Int) : List Nat := intBytes day ++ [44] ++ intBytes hour

/-- `getJSONQuote`: renders the parsed quote and author fields as
`"\x22" + quote + "\x22 - " + auth`.  The JSON parsing itself is an
external collaborator; the two extracted fields are environment inputs. -/
def getJSONQuote (quote auth : List Nat) : List Nat :=
  [34] ++ quote ++ [34, 32, 45, 32] ++ auth

/-- External collaborators of one `button1`/`httpRequest` run: the logins
file bytes (none when `fs.open` fails), the per-credential WiFi join
outcome (`wifiMulti.run()` reaching `WL_CONNECTED` within the timeout for
that login line), the connectivity/HTTP transport outcomes, the two JSON
fields extracted from the payload, the two `getLocalTime` readings
(day-of-month and hour), the SD quote files by index, and the value
returned by `random(settings[4], settings[5])`. -/
structure Env where
  loginsFile : Option (List Nat)
  joins : List Nat → Bool
  connected : Bool
  httpBegin : Bool
  httpCode : Int
  jsonQuote : List Nat
  jsonAuthor : List Nat
  clock1 : Option (Int × Int)
  clock2 : Option (Int × Int)
  sdFiles : Int → Option (List Nat)
  randPick : Int

/-- Mutable device state touched by the quote pipeline: the settings cells
used by it (`settings[1]` operation mode, `settings[2]` EEPROM update
flag, `settings[3]` sleep timeout, `settings[4]`/`settings[5]` SD index
range), the `wifiStatus` global, and the EEPROM contents. -/
structure DeviceState where
  settings1 : Int
  settings2 : Int
  settings3 : Int
  settings4 : Int
  settings5 : Int
  wifiStatus : Bool
  eeprom : EEPROM

/-- The character-processing loop of `bootWiFi` over the bytes of
`/resources/logins.txt`, threading the `comment` flag, the accumulated
`line`, the device state, and (as instrumentation) the ordered log of
lines passed to `tryWifi`.  On an in-loop success the line is persisted
at offset 400 and the function returns; `tryWifi` itself sets
`wifiStatus`.  After the loop, a leftover nonempty line is tried but not
persisted; if nothing succeeded, `settings[1]` is set to 2. -/
def nextComment (comment : Bool) (cur : Nat) : Bool :=
  if cur = 35 then true
  else if comment = true ∧ cur = 10 then false
  else comment

def nextLine (comment2 : Bool) (line : List Nat) (cur : Nat) : List Nat :=
  if comment2 = false ∧ 32 ≤ cur ∧ cur ≤ 126 then line ++ [cur] else line

def bootWiFiLoop (joins : List Nat → Bool) :
    List Nat → Bool → List Nat → DeviceState → List (List Nat) →
    DeviceState × List (List Nat)
  | [], _, line, st, log =>
      if 1 ≤ line.length then
        if joins line then ({st with wifiStatus := true}, log ++ [line])
        else ({st with wifiStatus := false, settings1 := 2}, log ++ [line])
      else ({st with settings1 := 2}, log)
  | cur :: rest, comment, line, st, log =>
      if comment = false ∧ cur = 10 ∧ 1 ≤ line.length then
        if joins line then
          ({st with wifiStatus := true,
                    eeprom := writeStringToEEPROM st.eeprom 400 line},
           log ++ [line])
        else
          bootWiFiLoop joins rest true [] {st with wifiStatus := false} (log ++ [line])
      else
        bootWiFiLoop joins rest (nextComment comment cur)
          (nextLine (nextComment comment cur) line cur) st log

/-- `bootWiFi` with the attempt log: processes the logins file starting in
comment mode; when the file cannot be opened, falls through to setting
`settings[1] = 2`. -/
def bootWiFiT (env : Env) (st : DeviceState) : DeviceState × List (List Nat) :=
  match env.loginsFile with
  | some bs => bootWiFiLoop env.joins bs true [] st []
  | none => ({st with settings1 := 2}, [])

/-- `bootWiFi` from the source (attempt log discarded). -/
def bootWiFi (env : Env) (st : DeviceState) : DeviceState :=
  (bootWiFiT env st).1

/-- `httpRequest(url)` from the source: on connectivity, a permitted
fetch per `validTime`, a successful `http.begin`, a positive status code
equal to `HTTP_CODE_OK` (200) or `HTTP_CODE_MOVED_PERMANENTLY` (301), the
quote is taken from the payload; with `settings[2] == 1` the quote is
written at offset 0 and then, only if the second `getLocalTime` call
succeeds, the day-hour tracker is written at offset 480.  Every other
path returns the fallback literal unchanged. -/
def httpRequest (env : Env) (st : DeviceState) : List Nat × DeviceState :=
  if env.connected = true ∧ validTime env.clock1 st.eeprom = true then
    if env.httpBegin = true then
      if 0 < env.httpCode then
        if env.httpCode = 200 ∨ env.httpCode = 301 then
          let quote := getJSONQuote env.jsonQuote env.jsonAuthor
          if st.settings2 = 1 then
            let e1 := writeStringToEEPROM st.eeprom 0 quote
            let e2 := match env.clock2 with
              | some dh => writeStringToEEPROM e1 480 (trackerBytes dh.1 dh.2)
              | none => e1
            (quote, {st with eeprom := e2})
          else (quote, st)
        else (httpSentinel, st)
      else (httpSentinel, st)
    else (httpSentinel, st)
  else (httpSentinel, st)

/-- `getRandSD` from the source: opens the SD quote file selected by
`random(settings[4], settings[5])`; on success returns its bytes, first
caching them at offset 0 when `settings[2] == 1`; on failure returns the
SD fallback literal. -/
def getRandSD (env : Env) (st : DeviceState) : List Nat × DeviceState :=
  match env.sdFiles env.randPick with
  | some backup =>
      if st.settings2 = 1 then
        (backup, {st with eeprom := writeStringToEEPROM st.eeprom 0 backup})
      else (backup, st)
  | none => (sdSentinel, st)

/-- First step of `button1`: `if (settings[1]%2 == 1 && !wifiStatus)`
reconnect via `bootWiFi` (C truncated `%` modelled by `Int.tmod`). -/
def button1Step1 (env : Env) (st : DeviceState) : DeviceState :=
  if Int.tmod st.settings1 2 = 1 ∧ st.wifiStatus = false then bootWiFi env st else st

/-- Second step of `button1`: the quote starts as the "Error." literal
and is replaced by the `httpRequest` result when `settings[1]%2 == 1`. -/
def button1Step2 (env : Env) (st : DeviceState) : List Nat × DeviceState :=
  if Int.tmod st.settings1 2 = 1 then httpRequest env st else (errorLit, st)

/-- `button1` from the source: reconnect step, fetch step, then
`if (settings[1] >= 3)` read the cached quote at offset 0, `else if` the
quote still starts with "Error." fall back to `getRandSD`. -/
def button1 (env : Env) (st : DeviceState) : List Nat × DeviceState :=
  let st1 := button1Step1 env st
  let qs := button1Step2 env st1
  if 3 ≤ qs.2.settings1 then (readStringFromEEPROM qs.2.eeprom 0, qs.2)
  else if qs.1.take 6 = errorLit then getRandSD env qs.2
  else qs


/-- Button combination held during one press-and-release cycle of
`buttonHandler` (the source assumes at least one button pressed and
branches on `one + two == 2`, `one == 1`, else button 2). -/
inductive Combo
  | b1
  | b2
  | both
deriving DecidableEq

/-- The action a `buttonHandler` run dispatches: the three short-press
actions (`button1`, `button2`, `magic8`), the three long-press actions
(`button1b`, `button2b`, the credits scroll), or none at all. -/
inductive HAction
  | newQuote
  | oldQuote
  | magic8
  | showTime
  | showDate
  | credits
  | noAction
deriving DecidableEq

/-- Outcome of a `buttonHandler` run: the dispatched action and the value
of the `sleepCom` flag on return. -/
structure HandlerResult where
  action : HAction
  sleepCom : Bool
deriving DecidableEq

/-- Short-press dispatch of each combination. -/
def shortActionOf : Combo → HAction
  | .b1 => .newQuote
  | .b2 => .oldQuote
  | .both => .magic8

/-- Long-press dispatch of each combination. -/
def longActionOf : Combo → HAction
  | .b1 => .showTime
  | .b2 => .showDate
  | .both => .credits

/-- `buttonHandler(one, two)` for a press of combination `c` held for
`d` ms with `thr = settings[10]`, under synthetic time: the tight hold
loop observes every elapsed value `t ≤ d` before release, so the long
branch (`millis() - preTime > settings[10]`) is entered exactly when
`thr < d`; inside it, the wait loop sets `sleepCom` and returns (before
the long action) exactly when some observed `t ≤ d` has `t > 3 * thr`,
i.e. when `thr * 3 < d`; otherwise the long action runs on release.
When the long branch never fired, the post-release check
`millis() - preTime < settings[10]` compares the elapsed time `d`
strictly against the threshold. -/
def buttonHandler (c : Combo) (d thr : Nat) : HandlerResult :=
  if thr < d then
    if thr * 3 < d then ⟨.noAction, true⟩
    else ⟨longActionOf c, false⟩
  else if d < thr then ⟨shortActionOf c, false⟩
  else ⟨.noAction, false⟩

/-- Power state reached after a handler run returns to the `setup` loop:
`while (!sleepCom)` exits to the deep-sleep sequence when the handler set
`sleepCom`. -/
inductive PowerState
  | idle
  | sleeping
deriving DecidableEq

/-- The `setup` loop transition on a handler result. -/
def nextPowerState (r : HandlerResult) : PowerState :=
  if r.sleepCom then .sleeping else .idle


/-- The all-zero EEPROM: every slot reads as the empty string. -/
def eeprom0 : EEPROM := fun _ => 0

/-- Environment of the offline Standard-mode scenario: no logins file, no
join ever succeeds, no transport, SD quote file 7 contains "Hello"
(bytes 72 101 108 108 111), and the index range [7, 8) selects file 7. -/
def envHello : Env where
  loginsFile := none
  joins := fun _ => false
  connected := false
  httpBegin := false
  httpCode := 0
  jsonQuote := []
  jsonAuthor := []
  clock1 := none
  clock2 := none
  sdFiles := fun i => if i = 7 then some [72, 101, 108, 108, 111] else none
  randPick := 7

/-- Device state of the offline Standard-mode scenario: mode Standard,
caching enabled, 30 s sleep timeout, SD index range [7, 8), not joined,
empty EEPROM (empty quote cache). -/
def stHello : DeviceState where
  settings1 := 1
  settings2 := 1
  settings3 := 30
  settings4 := 7
  settings5 := 8
  wifiStatus := false
  eeprom := eeprom0


/-- Environment with a failed transport and every SD quote file present
with content "New" (bytes 78 101 119). -/
def envNew : Env where
  loginsFile := none
  joins := fun _ => false
  connected := false
  httpBegin := false
  httpCode := 0
  jsonQuote := []
  jsonAuthor := []
  clock1 := none
  clock2 := none
  sdFiles := fun _ => some [78, 101, 119]
  randPick := 0

/-- Environment with a failed transport and no SD quote file readable. -/
def envNoSD : Env where
  loginsFile := none
  joins := fun _ => false
  connected := false
  httpBegin := false
  httpCode := 0
  jsonQuote := []
  jsonAuthor := []
  clock1 := none
  clock2 := none
  sdFiles := fun _ => none
  randPick := 0

/-- Standard mode, caching enabled, already joined, with the quote record
"Old" (bytes 79 108 100) cached at offset 0. -/
def stOld : DeviceState where
  settings1 := 1
  settings2 := 1
  settings3 := 30
  settings4 := 0
  settings5 := 1
  wifiStatus := true
  eeprom := writeStringToEEPROM eeprom0 0 [79, 108, 100]

/-- EEPROM-only mode (mode 4), already joined, with the quote record
"Old" cached at offset 0. -/
def stCacheOnly : DeviceState where
  settings1 := 4
  settings2 := 1
  settings3 := 30
  settings4 := 0
  settings5 := 1
  wifiStatus := true
  eeprom := writeStringToEEPROM eeprom0 0 [79, 108, 100]

/-- SD-only mode (mode 2) with an empty EEPROM. -/
def stSdOnly : DeviceState where
  settings1 := 2
  settings2 := 1
  settings3 := 30
  settings4 := 0
  settings5 := 1
  wifiStatus := false
  eeprom := eeprom0

/-- Successful-fetch environment whose second `getLocalTime` call fails:
connected, clock available at the `validTime` check (day 1, hour 0),
transport up, status 200, payload fields "q" and "a", but no clock
reading at the cache-write point. -/
def envFetchNoClock : Env where
  loginsFile := none
  joins := fun _ => false
  connected := true
  httpBegin := true
  httpCode := 200
  jsonQuote := [113]
  jsonAuthor := [97]
  clock1 := some (1, 0)
  clock2 := none
  sdFiles := fun _ => none
  randPick := 0

/-- Successful-fetch environment with both clock readings available. -/
def envFetchClock : Env where
  loginsFile := none
  joins := fun _ => false
  connected := true
  httpBegin := true
  httpCode := 200
  jsonQuote := [113]
  jsonAuthor := [97]
  clock1 := some (1, 0)
  clock2 := some (2, 3)
  sdFiles := fun _ => none
  randPick := 0

/-- Standard mode with caching enabled, already joined, empty EEPROM. -/
def stFetch : DeviceState where
  settings1 := 1
  settings2 := 1
  settings3 := 30
  settings4 := 0
  settings5 := 1
  wifiStatus := true
  eeprom := eeprom0

/-- Logins file holding the three credential lines "a", "b", "c"
(bytes 97, 98, 99), in the alternating comment-line/credential-line
format the boot parser consumes: a header line, then each credential
line terminated by a newline and separated by a one-character comment
line. -/
def loginsABC : List Nat := [10, 97, 10, 35, 10, 98, 10, 35, 10, 99, 10]

/-- Environment whose logins file is `loginsABC` and where only the
credential line "c" joins successfully. -/
def envABC : Env where
  loginsFile := some loginsABC
  joins := fun l => l == [99]
  connected := false
  httpBegin := false
  httpCode := 0
  jsonQuote := []
  jsonAuthor := []
  clock1 := none
  clock2 := none
  sdFiles := fun _ => none
  randPick := 0


theorem writeLoop_hit (s : List Nat) (off : Nat) :
    ∀ (n : Nat) (e : EEPROM) (i : Nat), i < n →
      ((List.range n).foldl
        (fun acc j => eepromWrite acc (off + 1 + j) (s.getD j 0)) e) (off + 1 + i)
        = s.getD i 0 % 256 := by
  intro n
  induction n with
  | zero => exact fun e i h => absurd h (Nat.not_lt_zero i)
  | succ k ih =>
    intro e i h
    rw [List.range_succ, List.foldl_append, List.foldl_cons, List.foldl_nil]
    by_cases hik : i = k
    · subst hik
      simp [eepromWrite]
    · have hlt : i < k := by omega
      show (if off + 1 + i = off + 1 + k then _ else _) = _
      rw [if_neg (by omega)]
      exact ih e i hlt

theorem writeLoop_miss (s : List Nat) (off : Nat) :
    ∀ (n : Nat) (e : EEPROM) (a : Nat), (∀ i, i < n → a ≠ off + 1 + i) →
      ((List.range n).foldl
        (fun acc j => eepromWrite acc (off + 1 + j) (s.getD j 0)) e) a = e a := by
  intro n
  induction n with
  | zero => intro e a _; rfl
  | succ k ih =>
    intro e a ha
    rw [List.range_succ, List.foldl_append, List.foldl_cons, List.foldl_nil]
    show (if a = off + 1 + k then _ else _) = _
    rw [if_neg (ha k (by omega))]
    exact ih e a (fun i hi => ha i (by omega))

theorem writeString_lenByte (e : EEPROM) (off : Nat) (s : List Nat) :
    writeStringToEEPROM e off s off = s.length % 256 := by
  unfold writeStringToEEPROM
  rw [writeLoop_miss s off _ _ off (fun i _ => by omega)]
  show (if off = off then (s.length % 256) % 256 else e off) = s.length % 256
  rw [if_pos rfl]
  omega

theorem writeString_char (e : EEPROM) (off : Nat) (s : List Nat) (i : Nat)
    (h : i < s.length % 256) :
    writeStringToEEPROM e off s (off + 1 + i) = s.getD i 0 % 256 := by
  unfold writeStringToEEPROM
  exact writeLoop_hit s off _ _ i h

theorem writeString_frame (e : EEPROM) (off : Nat) (s : List Nat) (a : Nat)
    (h : a < off ∨ off + 1 + s.length % 256 ≤ a) :
    writeStringToEEPROM e off s a = e a := by
  unfold writeStringToEEPROM
  rw [writeLoop_miss s off _ _ a (fun i hi => by omega)]
  show (if a = off then _ else e a) = e a
  rw [if_neg (by omega)]

theorem map_getD_range (s : List Nat) :
    (List.range s.length).map (fun i => s.getD i 0) = s := by
  induction s with
  | nil => rfl
  | cons b t ih =>
    rw [List.length_cons, List.range_succ_eq_map, List.map_cons, List.map_map]
    simp only [List.getD_cons_zero]
    have hcomp : ((fun i => (b :: t).getD i 0) ∘ Nat.succ) = fun i => t.getD i 0 := by
      funext i
      simp [List.getD_cons_succ]
    rw [hcomp, ih]

theorem takeWhile_length_le (p : Nat → Bool) (l : List Nat) :
    (l.takeWhile p).length ≤ l.length := by
  induction l with
  | nil => exact Nat.le_refl 0
  | cons b t ih =>
    simp only [List.takeWhile_cons]
    split
    · simpa using ih
    · simp

theorem takeWhile_ne_zero (l : List Nat) (h : ∀ b ∈ l, b ≠ 0) :
    l.takeWhile (fun b => b != 0) = l := by
  induction l with
  | nil => rfl
  | cons b t ih =>
    have hb : (b != 0) = true := by
      have := h b (List.mem_cons_self b t)
      simpa using this
    simp only [List.takeWhile_cons, hb, if_true]
    rw [ih (fun x hx => h x (List.mem_cons_of_mem b hx))]

theorem eeprom_roundtrip (e : EEPROM) (off : Nat) (s : List Nat)
    (hlen : s.length ≤ 255) (hb : ∀ b ∈ s, 1 ≤ b ∧ b ≤ 255) :
    readStringFromEEPROM (writeStringToEEPROM e off s) off = s := by
  have hmod : s.length % 256 = s.length := Nat.mod_eq_of_lt (by omega)
  unfold readStringFromEEPROM
  rw [writeString_lenByte, hmod]
  show ((List.range s.length).map
      (fun i => writeStringToEEPROM e off s (off + 1 + i))).takeWhile
      (fun b => b != 0) = s
  have hmap : ∀ i ∈ List.range s.length,
      writeStringToEEPROM e off s (off + 1 + i) = s.getD i 0 := by
    intro i hi
    rw [List.mem_range] at hi
    rw [writeString_char e off s i (by omega)]
    have hmem : s.getD i 0 ∈ s := by
      rw [List.getD_eq_getElem s 0 hi]
      exact List.getElem_mem hi
    have := hb _ hmem
    omega
  rw [List.map_congr_left hmap, map_getD_range]
  refine takeWhile_ne_zero s (fun b hbm => ?_)
  have := hb b hbm
  omega

theorem nextComment_printable (b : Nat) (hb : b ≠ 35) :
    nextComment false b = false := by
  unfold nextComment
  rw [if_neg hb, if_neg (by simp)]

theorem nextLine_printable (line : List Nat) (b : Nat) (hb : 32 ≤ b ∧ b ≤ 126) :
    nextLine false line b = line ++ [b] := by
  unfold nextLine
  rw [if_pos ⟨rfl, hb.1, hb.2⟩]

theorem bootWiFiLoop_newline (joins : List Nat → Bool) (rest : List Nat)
    (st : DeviceState) (log : List (List Nat)) :
    bootWiFiLoop joins (10 :: rest) true [] st log
      = bootWiFiLoop joins rest false [] st log := by
  rw [bootWiFiLoop, if_neg (by simp)]
  have hc : nextComment true 10 = false := by decide
  rw [hc]
  rfl

theorem bootWiFiLoop_hash (joins : List Nat → Bool) (rest : List Nat)
    (st : DeviceState) (log : List (List Nat)) :
    bootWiFiLoop joins (35 :: rest) true [] st log
      = bootWiFiLoop joins rest true [] st log := by
  rw [bootWiFiLoop, if_neg (by simp)]
  have hc : nextComment true 35 = true := by decide
  rw [hc]
  rfl

theorem bootWiFiLoop_consume (joins : List Nat → Bool) (L : List Nat)
    (hL : ∀ b ∈ L, 32 ≤ b ∧ b ≤ 126 ∧ b ≠ 35) :
    ∀ (rest line : List Nat) (st : DeviceState) (log : List (List Nat)),
      bootWiFiLoop joins (L ++ rest) false line st log
        = bootWiFiLoop joins rest false (line ++ L) st log := by
  induction L with
  | nil => intro rest line st log; simp
  | cons b t ih =>
    intro rest line st log
    have hb := hL b (List.mem_cons_self b t)
    rw [List.cons_append, bootWiFiLoop, if_neg (by omega)]
    rw [nextComment_printable b hb.2.2, nextLine_printable line b ⟨hb.1, hb.2.1⟩]
    rw [ih (fun x hx => hL x (List.mem_cons_of_mem b hx)) rest (line ++ [b]) st log]
    rw [List.append_assoc, List.singleton_append]

theorem bootWiFiLoop_try_fail (joins : List Nat → Bool) (rest line : List Nat)
    (st : DeviceState) (log : List (List Nat))
    (hline : 1 ≤ line.length) (hj : joins line = false) :
    bootWiFiLoop joins (10 :: rest) false line st log
      = bootWiFiLoop joins rest true [] {st with wifiStatus := false} (log ++ [line]) := by
  rw [bootWiFiLoop, if_pos ⟨rfl, rfl, hline⟩, hj]
  rfl

theorem bootWiFiLoop_try_ok (joins : List Nat → Bool) (rest line : List Nat)
    (st : DeviceState) (log : List (List Nat))
    (hline : 1 ≤ line.length) (hj : joins line = true) :
    bootWiFiLoop joins (10 :: rest) false line st log
      = ({st with wifiStatus := true,
                  eeprom := writeStringToEEPROM st.eeprom 400 line},
         log ++ [line]) := by
  rw [bootWiFiLoop, if_pos ⟨rfl, rfl, hline⟩, hj]
  rfl

theorem bootWiFiLoop_settings1 (joins : List Nat → Bool) :
    ∀ (bs : List Nat) (comment : Bool) (line : List Nat) (st : DeviceState)
      (log : List (List Nat)),
      (bootWiFiLoop joins bs comment line st log).1.settings1 = st.settings1 ∨
      (bootWiFiLoop joins bs comment line st log).1.settings1 = 2 := by
  intro bs
  induction bs with
  | nil =>
    intro comment line st log
    rw [bootWiFiLoop]
    split
    · split
      · left; rfl
      · right; rfl
    · right; rfl
  | cons cur rest ih =>
    intro comment line st log
    rw [bootWiFiLoop]
    split
    · split
      · left; rfl
      · exact ih true [] {st with wifiStatus := false} (log ++ [line])
    · exact ih (nextComment comment cur)
        (nextLine (nextComment comment cur) line cur) st log

theorem bootWiFi_settings1 (env : Env) (st : DeviceState) :
    (bootWiFi env st).settings1 = st.settings1 ∨ (bootWiFi env st).settings1 = 2 := by
  unfold bootWiFi bootWiFiT
  cases env.loginsFile with
  | none => right; rfl
  | some bs => exact bootWiFiLoop_settings1 env.joins bs true [] st []

theorem httpRequest_fail (env : Env) (st : DeviceState)
    (h : env.connected = false ∨ env.httpBegin = false ∨ env.httpCode ≤ 0 ∨
         (env.httpCode ≠ 200 ∧ env.httpCode ≠ 301)) :
    httpRequest env st = (httpSentinel, st) := by
  unfold httpRequest
  split
  · next h1 =>
    split
    · next h2 =>
      split
      · next h3 =>
        split
        · next h4 =>
          exfalso
          rcases h with h | h | h | h
          · rw [h1.1] at h; exact Bool.noConfusion h
          · rw [h2] at h; exact Bool.noConfusion h
          · omega
          · rcases h4 with h4 | h4
            · exact h.1 h4
            · exact h.2 h4
        · rfl
      · rfl
    · rfl
  · rfl

theorem httpRequest_success (env : Env) (st : DeviceState)
    (hc : env.connected = true) (hv : validTime env.clock1 st.eeprom = true)
    (hb : env.httpBegin = true)
    (hcode : env.httpCode = 200 ∨ env.httpCode = 301)
    (hcache : st.settings2 = 1) :
    httpRequest env st =
      (getJSONQuote env.jsonQuote env.jsonAuthor,
       {st with eeprom :=
          match env.clock2 with
          | some dh =>
              writeStringToEEPROM
                (writeStringToEEPROM st.eeprom 0
                  (getJSONQuote env.jsonQuote env.jsonAuthor))
                480 (trackerBytes dh.1 dh.2)
          | none =>
              writeStringToEEPROM st.eeprom 0
                (getJSONQuote env.jsonQuote env.jsonAuthor)}) := by
  unfold httpRequest
  rw [if_pos ⟨hc, hv⟩, if_pos hb, if_pos (by omega), if_pos hcode, if_pos hcache]

theorem getRandSD_fst (env : Env) (st : DeviceState) :
    (getRandSD env st).1 =
      match env.sdFiles env.randPick with
      | some backup => backup
      | none => sdSentinel := by
  unfold getRandSD
  split
  · split
    · rfl
    · rfl
  · rfl

theorem button1Step2_fail (env : Env) (st : DeviceState)
    (hfail : env.connected = false ∨ env.httpBegin = false ∨ env.httpCode ≤ 0 ∨
             (env.httpCode ≠ 200 ∧ env.httpCode ≠ 301)) :
    (button1Step2 env st).1.take 6 = errorLit ∧ (button1Step2 env st).2 = st := by
  unfold button1Step2
  split
  · rw [httpRequest_fail env st hfail]
    refine ⟨?_, rfl⟩
    show httpSentinel.take 6 = errorLit
    decide
  · refine ⟨?_, rfl⟩
    show errorLit.take 6 = errorLit
    decide

/-- Claim C1: for every stored watermark and every current time obtained
from the clock (a real day-of-month 1..31 and nonnegative hour), the
rate-limit gate `validTime` returns true exactly when no watermark string
is stored, or when the day differs from the parsed `p_day` and the hour
is at least the parsed `p_hour`; in particular with watermark day 5 hour
10 and current time day 5 hour 14 it returns false. -/
theorem claim1_validTime_gate (e : EEPROM) (day hour : Int)
    (hday1 : 1 ≤ day) (hday2 : day ≤ 31) (hhour : 0 ≤ hour) :
    (validTime (some (day, hour)) e = true ↔
      (readStringFromEEPROM e 480 = [] ∨
       (day ≠ watermarkDay (readStringFromEEPROM e 480) ∧
        watermarkHour (readStringFromEEPROM e 480) ≤ hour))) ∧
    validTime (some (5, 14)) (writeStringToEEPROM eeprom0 480 [53, 44, 49, 48]) = false := by
  constructor
  · simp only [validTime, Bool.and_eq_true, decide_eq_true_eq]
    constructor
    · intro h
      exact Or.inr h
    · intro h
      rcases h with h | h
      · rw [h]
        have hd : watermarkDay [] = 0 := by decide
        have hh : watermarkHour [] = 0 := by decide
        rw [hd, hh]
        exact ⟨by omega, by omega⟩
      · exact h
  · decide

theorem claim1_validTime_gate_witness :
    validTime (some (5, 14)) eeprom0 = true ∧
    validTime (some (5, 14)) (writeStringToEEPROM eeprom0 480 [53, 44, 49, 48]) = false := by
  have h := claim1_validTime_gate eeprom0 5 14 (by decide) (by decide) (by decide)
  exact ⟨h.1.mpr (Or.inl (by decide)), h.2⟩

/-- Claim C4, counterexample: the one-character string holding the byte 0
has length 1 but does not survive the write/read round trip — the read
stops at the NUL byte and returns the empty string. -/
theorem claim4_roundtrip_counterexample :
    readStringFromEEPROM (writeStringToEEPROM eeprom0 0 [0]) 0 = [] ∧
    readStringFromEEPROM (writeStringToEEPROM eeprom0 0 [0]) 0 ≠ [0] :=
  ⟨by decide, by decide⟩

/-- Claim C4, amended: for every string of length at most 255 all of
whose bytes are nonzero (proper byte values 1..255), writing it with
`writeStringToEEPROM` and reading the same offset with
`readStringFromEEPROM` returns the identical string. -/
theorem claim4_roundtrip_amended (e : EEPROM) (off : Nat) (s : List Nat)
    (hlen : s.length ≤ 255) (hb : ∀ b ∈ s, 1 ≤ b ∧ b ≤ 255) :
    readStringFromEEPROM (writeStringToEEPROM e off s) off = s :=
  eeprom_roundtrip e off s hlen hb

theorem claim4_roundtrip_amended_witness :
    readStringFromEEPROM (writeStringToEEPROM eeprom0 3 [72, 105]) 3 = [72, 105] :=
  claim4_roundtrip_amended eeprom0 3 [72, 105] (by decide) (by decide)

/-- Claim C10: `writeStringToEEPROM` stores the length prefix
`s.length() mod 256` and writes exactly that many characters (cells below
the offset and past the written range keep their old bytes); hence for a
string longer than 255 the round trip at the same offset cannot return
the original string. -/
theorem claim10_write_truncates (e : EEPROM) (off : Nat) (s : List Nat) :
    writeStringToEEPROM e off s off = s.length % 256 ∧
    (∀ i, i < s.length % 256 →
      writeStringToEEPROM e off s (off + 1 + i) = s.getD i 0 % 256) ∧
    (∀ a, a < off ∨ off + 1 + s.length % 256 ≤ a →
      writeStringToEEPROM e off s a = e a) ∧
    (255 < s.length → readStringFromEEPROM (writeStringToEEPROM e off s) off ≠ s) := by
  refine ⟨writeString_lenByte e off s, fun i hi => writeString_char e off s i hi,
          fun a ha => writeString_frame e off s a ha, fun hlen heq => ?_⟩
  have hlenr : (readStringFromEEPROM (writeStringToEEPROM e off s) off).length
      ≤ s.length % 256 := by
    show (((List.range (writeStringToEEPROM e off s off)).map
      (fun i => writeStringToEEPROM e off s (off + 1 + i))).takeWhile
      (fun b => b != 0)).length ≤ s.length % 256
    calc (((List.range (writeStringToEEPROM e off s off)).map
            (fun i => writeStringToEEPROM e off s (off + 1 + i))).takeWhile
            (fun b => b != 0)).length
        ≤ ((List.range (writeStringToEEPROM e off s off)).map
            (fun i => writeStringToEEPROM e off s (off + 1 + i))).length :=
          takeWhile_length_le _ _
      _ = writeStringToEEPROM e off s off := by
          rw [List.length_map, List.length_range]
      _ = s.length % 256 := writeString_lenByte e off s
  rw [heq] at hlenr
  omega

theorem claim10_write_truncates_witness :
    255 < (List.replicate 256 65).length ∧
    readStringFromEEPROM (writeStringToEEPROM eeprom0 0 (List.replicate 256 65)) 0
      ≠ List.replicate 256 65 :=
  ⟨by rw [List.length_replicate]; omega,
   (claim10_write_truncates eeprom0 0 (List.replicate 256 65)).2.2.2
     (by rw [List.length_replicate]; omega)⟩

/-- Claim C5, counterexample: a Button1 press held for exactly the long
press threshold (d = thr = 1000 ms) dispatches no action at all — the
long branch needs elapsed > threshold and the post-release short check
needs elapsed < threshold, so the press is dropped, not short. -/
theorem claim5_threshold_counterexample :
    buttonHandler Combo.b1 1000 1000 = ⟨HAction.noAction, false⟩ ∧
    buttonHandler Combo.b1 1000 1000 ≠ ⟨shortActionOf Combo.b1, false⟩ :=
  ⟨by decide, by decide⟩

/-- Claim C5, amended: for every combination, a hold strictly shorter
than the threshold dispatches the short action; a hold of exactly the
threshold dispatches nothing (neither short nor long, no sleep); a long
event requires a hold strictly greater than the threshold (up to three
times the threshold). -/
theorem claim5_threshold_amended (c : Combo) (d thr : Nat) :
    (d < thr → buttonHandler c d thr = ⟨shortActionOf c, false⟩) ∧
    (d = thr → buttonHandler c d thr = ⟨HAction.noAction, false⟩) ∧
    (thr < d → d ≤ thr * 3 → buttonHandler c d thr = ⟨longActionOf c, false⟩) := by
  unfold buttonHandler
  refine ⟨fun h => ?_, fun h => ?_, fun h1 h2 => ?_⟩
  · rw [if_neg (by omega), if_pos h]
  · rw [if_neg (by omega), if_neg (by omega)]
  · rw [if_pos h1, if_neg (by omega)]

theorem claim5_threshold_amended_witness :
    buttonHandler Combo.b1 500 1000 = ⟨HAction.newQuote, false⟩ ∧
    buttonHandler Combo.b2 1000 1000 = ⟨HAction.noAction, false⟩ ∧
    buttonHandler Combo.both 1500 1000 = ⟨HAction.credits, false⟩ :=
  ⟨(claim5_threshold_amended Combo.b1 500 1000).1 (by decide),
   (claim5_threshold_amended Combo.b2 1000 1000).2.1 rfl,
   (claim5_threshold_amended Combo.both 1500 1000).2.2 (by decide) (by decide)⟩

/-- Claim C6, counterexample: both buttons held for exactly three times
the threshold (3000 ms at thr = 1000) do not force sleep — the check is
strict — so the long-press credits action runs and the device stays
awake. -/
theorem claim6_forcesleep_counterexample :
    buttonHandler Combo.both 3000 1000 = ⟨HAction.credits, false⟩ ∧
    nextPowerState (buttonHandler Combo.both 3000 1000) = PowerState.idle :=
  ⟨by decide, by decide⟩

/-- Claim C6, amended: for every combination, a hold strictly longer than
three times the threshold sets `sleepCom` and returns with no action
dispatched — in particular the credits scroll never runs — and the setup
loop then transitions to sleep; the both-buttons 4 x threshold scenario
is an instance. -/
theorem claim6_forcesleep_amended (c : Combo) (thr d : Nat) (h : thr * 3 < d) :
    buttonHandler c d thr = ⟨HAction.noAction, true⟩ ∧
    (buttonHandler c d thr).action ≠ HAction.credits ∧
    nextPowerState (buttonHandler c d thr) = PowerState.sleeping := by
  have hb : buttonHandler c d thr = ⟨HAction.noAction, true⟩ := by
    unfold buttonHandler
    rw [if_pos (by omega), if_pos h]
  refine ⟨hb, ?_, ?_⟩
  · rw [hb]
    decide
  · rw [hb]
    decide

theorem claim6_forcesleep_amended_witness :
    buttonHandler Combo.both 4000 1000 = ⟨HAction.noAction, true⟩ ∧
    (buttonHandler Combo.both 4000 1000).action ≠ HAction.credits ∧
    nextPowerState (buttonHandler Combo.both 4000 1000) = PowerState.sleeping :=
  claim6_forcesleep_amended Combo.both 1000 4000 (by decide)

theorem httpRequest_settings1 (env : Env) (st : DeviceState) :
    (httpRequest env st).2.settings1 = st.settings1 := by
  unfold httpRequest
  repeat' split
  all_goals rfl

theorem button1Step2_settings1 (env : Env) (st : DeviceState) :
    (button1Step2 env st).2.settings1 = st.settings1 := by
  unfold button1Step2
  split
  · exact httpRequest_settings1 env st
  · rfl

/-- Claim C2: in a session mode that is not cache-forcing (modes 1 and 2;
the code forces the cached read for `settings[1] >= 3`), when the network
fetch fails at the transport level (not connected, `http.begin` failed,
a non-positive status, or a status other than 200/301) and the quote
cache is empty, the new-quote acquisition returns the text of the
selected SD quote file; when that file cannot be opened it returns the
fixed SD sentinel text.  The model is a total function, so the
acquisition always returns some string. -/
theorem claim2_fallback_order (env : Env) (st : DeviceState)
    (hmode : st.settings1 = 1 ∨ st.settings1 = 2)
    (hfail : env.connected = false ∨ env.httpBegin = false ∨ env.httpCode ≤ 0 ∨
             (env.httpCode ≠ 200 ∧ env.httpCode ≠ 301))
    (hcache : readStringFromEEPROM st.eeprom 0 = []) :
    (button1 env st).1 =
      (match env.sdFiles env.randPick with
       | some backup => backup
       | none => sdSentinel) := by
  have hst1 : (button1Step1 env st).settings1 = 1 ∨
      (button1Step1 env st).settings1 = 2 := by
    unfold button1Step1
    split
    · rcases bootWiFi_settings1 env st with h | h
      · rw [h]; exact hmode
      · right; exact h
    · exact hmode
  have h2 := button1Step2_fail env (button1Step1 env st) hfail
  simp only [button1]
  rw [h2.2, if_neg (by rcases hst1 with h | h <;> rw [h] <;> omega), if_pos h2.1,
     getRandSD_fst]

theorem claim2_fallback_order_witness :
    (button1 envNoSD stSdOnly).1 = sdSentinel :=
  claim2_fallback_order envNoSD stSdOnly (Or.inr rfl) (Or.inl rfl) (by decide)

/-- Claim C3, counterexample: in Standard mode (`settings[1] = 1`) with
caching enabled (`settings[2] = 1`), an already-joined session, the
QuoteRecord "Old" cached at offset 0 and a failed network fetch,
`button1` takes its quote from the SD card ("New"), not from the
persistent store's QuoteRecord as the claim requires. -/
theorem claim3_cache_read_counterexample :
    (button1 envNew stOld).1 = [78, 101, 119] ∧
    readStringFromEEPROM stOld.eeprom 0 = [79, 108, 100] ∧
    (button1 envNew stOld).1 ≠ readStringFromEEPROM stOld.eeprom 0 :=
  ⟨by decide, by decide, by decide⟩

/-- Claim C3, amended: the acquisition reads the last QuoteRecord from
the persistent store (EEPROM offset 0) exactly when the operation mode in
effect after the reconnect step is at least 3 (the cache-forcing values),
regardless of the cache-enable flag; when that mode is below 3 and the
fetch step was skipped or failed, the quote comes from the SD fallback
instead of the store. -/
theorem claim3_cache_read_amended (env : Env) (st : DeviceState) :
    (3 ≤ (button1Step1 env st).settings1 →
      (button1 env st).1 =
        readStringFromEEPROM (button1Step2 env (button1Step1 env st)).2.eeprom 0) ∧
    ((button1Step1 env st).settings1 < 3 →
      (button1Step2 env (button1Step1 env st)).1.take 6 = errorLit →
      (button1 env st).1 =
        (match env.sdFiles env.randPick with
         | some backup => backup
         | none => sdSentinel)) := by
  have hs := button1Step2_settings1 env (button1Step1 env st)
  constructor
  · intro h
    simp only [button1]
    rw [if_pos (by rw [hs]; exact h)]
  · intro h1 h2
    simp only [button1]
    rw [if_neg (by rw [hs]; omega), if_pos h2, getRandSD_fst]

theorem claim3_cache_read_amended_witness :
    (button1 envNew stCacheOnly).1 = [79, 108, 100] := by
  have h := (claim3_cache_read_amended envNew stCacheOnly).1 (by decide)
  rw [h]
  decide

/-- Claim C9: the offline Standard-mode scenario — caching enabled, sleep
timeout 30 s, no network (no logins file, every join fails, transport
down), empty quote cache, SD index range [7, 8) selecting quote file 7
whose content is "Hello" — a short Button1 press (held 100 ms against a
1000 ms threshold) dispatches the new-quote acquisition, which returns
"Hello" (bytes 72 101 108 108 111) and leaves "Hello" cached in the
quote-record slot at offset 0. -/
theorem claim9_offline_scenario :
    (buttonHandler Combo.b1 100 1000).action = HAction.newQuote ∧
    stHello.settings4 ≤ envHello.randPick ∧ envHello.randPick < stHello.settings5 ∧
    (button1 envHello stHello).1 = [72, 101, 108, 108, 111] ∧
    readStringFromEEPROM (button1 envHello stHello).2.eeprom 0
      = [72, 101, 108, 108, 111] :=
  ⟨by decide, by decide, by decide, by decide, by decide⟩

/-- Claim C7: with the logins file holding the ordered credential lines
A, B, C — nonempty printable lines (bytes 32..126) free of the comment
byte 35, each terminated by a newline, laid out in the alternating
comment-line/credential-line format the boot parser consumes — and a
join primitive that fails on A and B and succeeds on C, `bootWiFi`
attempts exactly A then B then C in that order, stops at C's success,
persists C at EEPROM offset 400, records the join in `wifiStatus`, and
leaves the operation mode unchanged. -/
theorem claim7_credential_order (env : Env) (st : DeviceState)
    (A B C : List Nat)
    (hA : ∀ b ∈ A, 32 ≤ b ∧ b ≤ 126 ∧ b ≠ 35)
    (hB : ∀ b ∈ B, 32 ≤ b ∧ b ≤ 126 ∧ b ≠ 35)
    (hC : ∀ b ∈ C, 32 ≤ b ∧ b ≤ 126 ∧ b ≠ 35)
    (hAne : 1 ≤ A.length) (hBne : 1 ≤ B.length) (hCne : 1 ≤ C.length)
    (hClen : C.length ≤ 255)
    (hfile : env.loginsFile =
      some (10 :: (A ++ (10 :: 35 :: 10 :: (B ++ (10 :: 35 :: 10 :: (C ++ [10])))))))
    (hjA : env.joins A = false) (hjB : env.joins B = false)
    (hjC : env.joins C = true) :
    (bootWiFiT env st).2 = [A, B, C] ∧
    readStringFromEEPROM (bootWiFiT env st).1.eeprom 400 = C ∧
    (bootWiFiT env st).1.wifiStatus = true ∧
    (bootWiFiT env st).1.settings1 = st.settings1 := by
  have hstart : bootWiFiT env st =
      bootWiFiLoop env.joins
        (10 :: (A ++ (10 :: 35 :: 10 :: (B ++ (10 :: 35 :: 10 :: (C ++ [10]))))))
        true [] st [] := by
    unfold bootWiFiT
    rw [hfile]
  have hrun : bootWiFiT env st =
      ({st with wifiStatus := true,
                eeprom := writeStringToEEPROM st.eeprom 400 C},
       [A, B, C]) := by
    rw [hstart, bootWiFiLoop_newline, bootWiFiLoop_consume env.joins A hA,
       List.nil_append,
       bootWiFiLoop_try_fail env.joins _ A st [] hAne hjA,
       bootWiFiLoop_hash, bootWiFiLoop_newline,
       bootWiFiLoop_consume env.joins B hB, List.nil_append,
       bootWiFiLoop_try_fail env.joins _ B _ _ hBne hjB,
       bootWiFiLoop_hash, bootWiFiLoop_newline,
       bootWiFiLoop_consume env.joins C hC, List.nil_append,
       bootWiFiLoop_try_ok env.joins _ C _ _ hCne hjC]
    rfl
  rw [hrun]
  refine ⟨rfl, ?_, rfl, rfl⟩
  exact eeprom_roundtrip st.eeprom 400 C hClen
    (fun b hb => ⟨by have := hC b hb; omega, by have := hC b hb; omega⟩)

theorem claim7_credential_order_witness :
    (bootWiFiT envABC stFetch).2 = [[97], [98], [99]] ∧
    readStringFromEEPROM (bootWiFiT envABC stFetch).1.eeprom 400 = [99] ∧
    (bootWiFiT envABC stFetch).1.wifiStatus = true ∧
    (bootWiFiT envABC stFetch).1.settings1 = stFetch.settings1 :=
  claim7_credential_order envABC stFetch [97] [98] [99]
    (by decide) (by decide) (by decide) (by decide) (by decide) (by decide)
    (by decide) rfl (by decide) (by decide) (by decide)

/-- Claim C8, counterexample: a successful fetch with caching enabled
whose clock read at the write point fails (the first `getLocalTime` call
inside `validTime` succeeded, the second one did not) overwrites the
QuoteRecord slot at offset 0 with the fetched quote but leaves the
RateWatermark slot at offset 480 untouched — the two writes are not
inseparable as the claim states. -/
theorem claim8_watermark_counterexample :
    readStringFromEEPROM stFetch.eeprom 0 = [] ∧
    readStringFromEEPROM (httpRequest envFetchNoClock stFetch).2.eeprom 0
      = [34, 113, 34, 32, 45, 32, 97] ∧
    readStringFromEEPROM (httpRequest envFetchNoClock stFetch).2.eeprom 480 = [] :=
  ⟨by decide, by decide, by decide⟩

/-- Claim C8, amended: on every successful fetch with caching enabled,
`httpRequest` overwrites the QuoteRecord slot at offset 0 with the
fetched quote before returning, and overwrites the RateWatermark slot at
offset 480 with the fetch's day and hour exactly when the clock read at
the write point succeeds; the watermark write never happens without the
quote write, but the quote write does happen alone when that clock read
fails. -/
theorem claim8_watermark_amended (env : Env) (st : DeviceState)
    (hc : env.connected = true) (hv : validTime env.clock1 st.eeprom = true)
    (hb : env.httpBegin = true)
    (hcode : env.httpCode = 200 ∨ env.httpCode = 301)
    (hcache : st.settings2 = 1) :
    (httpRequest env st).1 = getJSONQuote env.jsonQuote env.jsonAuthor ∧
    (httpRequest env st).2.eeprom =
      (match env.clock2 with
       | some dh =>
           writeStringToEEPROM
             (writeStringToEEPROM st.eeprom 0
               (getJSONQuote env.jsonQuote env.jsonAuthor))
             480 (trackerBytes dh.1 dh.2)
       | none =>
           writeStringToEEPROM st.eeprom 0
             (getJSONQuote env.jsonQuote env.jsonAuthor)) := by
  rw [httpRequest_success env st hc hv hb hcode hcache]
  exact ⟨rfl, rfl⟩

theorem claim8_watermark_amended_witness :
    (httpRequest envFetchClock stFetch).1 = [34, 113, 34, 32, 45, 32, 97] ∧
    readStringFromEEPROM (httpRequest envFetchClock stFetch).2.eeprom 480
      = [50, 44, 51] := by
  have h := claim8_watermark_amended envFetchClock stFetch rfl (by decide) rfl
    (Or.inl rfl) rfl
  refine ⟨by rw [h.1]; decide, by rw [h.2]; decide⟩
